import Mathlib

/-!
# BioMind retrieval / context-selection / confidence subsystem: a shallow embedding

This file embeds the core algorithmic logic of the BioMind repository in Lean 4
and proves the specified properties about it.

Embedded source files:
* `BioMind/rag/context_manager.py` — passage scoring, quality/recency heuristics,
  greedy budget-constrained context selection with provenance.
* `confidence_evaluator.py` — evidence / consistency / novelty sub-scores and the
  combined confidence percentage.
* `BioMind/agents/retriever_agent.py` — multi-source fetch with its
  exception-handling structure.
* `BioMind/agents/coordinator_agent.py` — the no-evidence early exit.
* `BioMind/rag/response_generator.py` — the `enhance_response` evidence-text
  extraction from provenance.

Modelling conventions:
* Python floats are modelled as real numbers (`ℝ`); `numpy` / `math`
  operations (`exp`, `log1p`, `** 0.5`) become `Real.exp`, `Real.log`, `Real.sqrt`.
* Python dictionaries with a fixed set of recognized keys are modelled as
  structures whose fields are `Option`-typed; a missing key is `none`.
* Exceptions raised by external backends (embedding provider, connectors,
  vector index) are modelled with `Except Unit`; the external capabilities
  themselves (embedding functions, NLI check, connector fetches, the LLM) are
  parameters, matching the spec's "external collaborator" interfaces.
* Python's stable `list.sort(key=..., reverse=True)` / `sorted(..., reverse=True)`
  is modelled by a stable insertion sort in descending key order (a stable sort's
  output is uniquely determined by the key order and stability, so any stable
  sorting algorithm is an extensionally faithful model).
* Dates (`datetime`) are modelled by their day count as an integer; `now` is an
  explicit parameter.
-/

namespace BioMind

/-! ## Text primitives

`wordsOf` models Python's `str.split()` (split on whitespace runs, dropping
empty pieces); `wordCount` models `len(s.split())`; `clean_text` models
`re.sub(r'\s+', ' ', text).strip()` from `utils/text_utils.py`, which is
extensionally `" ".join(text.split())`; `strContains` models Python's
substring test `needle in hay`; `lowerStr` models `str.lower()`. -/

/-- Split a character list on whitespace runs, dropping empty pieces.
`acc` holds the (reversed) current word. -/
def splitWsAux : List Char → List Char → List (List Char)
  | [], acc => if acc.isEmpty then [] else [acc.reverse]
  | c :: t, acc =>
    if c.isWhitespace then
      if acc.isEmpty then splitWsAux t [] else acc.reverse :: splitWsAux t []
    else splitWsAux t (c :: acc)

/-- The whitespace-separated words of a character list (Python `str.split()`). -/
def wordsOf (l : List Char) : List (List Char) := splitWsAux l []

/-- `len(s.split())`: the whitespace-token count used as the rough token count
in `select_passages`. -/
def wordCount (s : String) : Nat := (wordsOf s.data).length

/-- `clean_text` from `utils/text_utils.py`:
`re.sub(r'\s+', ' ', text).strip()`, i.e. `" ".join(text.split())`. -/
def clean_text (s : String) : String :=
  String.intercalate " " ((wordsOf s.data).map (fun w => String.mk w))

/-- Does `pre` occur at the head of `l`? -/
def isPrefixList : List Char → List Char → Bool
  | [], _ => true
  | _ :: _, [] => false
  | a :: as, b :: bs => a == b && isPrefixList as bs

/-- Does `needle` occur as a contiguous substring of `hay`?
(Python `needle in hay`.) -/
def containsSub (hay needle : List Char) : Bool :=
  if isPrefixList needle hay then true
  else
    match hay with
    | [] => false
    | _ :: t => containsSub t needle

/-- String-level substring test, Python `needle in hay`. -/
def strContains (hay needle : String) : Bool := containsSub hay.data needle.data

/-- Number of (possibly overlapping) occurrences of `needle` in `hay`:
the number of positions of `hay` at which `needle` starts. -/
def countOccur (hay needle : List Char) : Nat :=
  (if isPrefixList needle hay then 1 else 0) +
    match hay with
    | [] => 0
    | _ :: t => countOccur t needle

/-- Python `str.lower()` (ASCII case folding, as `Char.toLower`). -/
def lowerStr (s : String) : String := String.mk (s.data.map Char.toLower)

/-! ## Real-vector primitives -/

/-- Dot product of two vectors, `sum(a * b for a, b in zip(v, w))`. -/
def dotl (v w : List ℝ) : ℝ := (List.zipWith (· * ·) v w).sum

/-- Cosine similarity as computed (identically) in `confidence_evaluator.py`
and `retriever_agent.py`: `dot / (norm1 * norm2) if norm1 and norm2 else 0`,
with `norm = (sum of squares) ** 0.5`. -/
noncomputable def cosSim (v w : List ℝ) : ℝ :=
  let dot := dotl v w
  let n1 := Real.sqrt (dotl v v)
  let n2 := Real.sqrt (dotl w w)
  if n1 ≠ 0 ∧ n2 ≠ 0 then dot / (n1 * n2) else 0

/-- All unordered pairs `(l[i], l[j])` with `i < j`, in the loop order of the
Python double loop `for i in range(n): for j in range(i+1, n)`. -/
def listPairs {α : Type} : List α → List (α × α)
  | [] => []
  | x :: t => t.map (fun y => (x, y)) ++ listPairs t

/-! ## Stable descending sort

Python's `list.sort(key=k, reverse=True)` and `sorted(..., reverse=True)` are
stable sorts in non-increasing key order. We model them by a stable insertion
sort `sortD`: a later element is inserted after every earlier element whose key
is `≥` its own, so equal-key elements keep their input order. -/

section SortD

variable {α : Type} (key : α → ℝ)

/-- Insert `a` before the first element with a strictly smaller key. -/
noncomputable def insertD (a : α) : List α → List α
  | [] => [a]
  | q :: t => if key q ≤ key a then a :: q :: t else q :: insertD a t

/-- Stable insertion sort in non-increasing key order. -/
noncomputable def sortD : List α → List α
  | [] => []
  | x :: t => insertD key x (sortD t)

/-- The elements of a list with a given key value, in order. -/
noncomputable def keyFilter (s : ℝ) (l : List α) : List α :=
  l.filter (fun x => decide (key x = s))

end SortD

/-! ## Context manager (`BioMind/rag/context_manager.py`)

The Python metadata dictionary is modelled as a structure of `Option`-typed
recognized keys (a missing key is `none`). `date` holds the result of the
ISO-8601 parsing step as a day number (`datetime` values are modelled by their
day count; an unparseable or absent date is `none`). `citation_count` and
`impact_factor` default to `0` as in `metadata.get(..., 0)`. -/

structure Meta where
  source : Option String := none
  priority : Option String := none
  source_type : Option String := none
  citation_count : ℝ := 0
  impact_factor : ℝ := 0
  date : Option ℤ := none
  source_id : Option String := none
  chunk_id : Option String := none
  url : Option String := none

/-- A `langchain` `Document`: `page_content` plus metadata. -/
structure Document where
  page_content : String
  metadata : Meta

/-- `ScoredPassage` from `context_manager.py`. -/
structure ScoredPassage where
  content : String
  metadata : Meta
  semantic_score : ℝ
  recency_score : ℝ := 0
  quality_score : ℝ := 0
  final_score : ℝ := 0

/-- `ContextManager.calculate_recency_score`. `now` and the document date are
day numbers; `days_old = (datetime.now() - doc_date).days`. -/
noncomputable def calculate_recency_score (now : ℤ) (doc_date : Option ℤ) : ℝ :=
  match doc_date with
  | none => 0.5
  | some d =>
    let days_old : ℤ := now - d
    if days_old < 0 then 0.5
    else Real.exp (-(0.1) * (days_old : ℝ))

/-- `ContextManager.calculate_quality_score`, with the sequential `score += ...`
updates of the source. `np.log1p x = Real.log (1 + x)`. -/
noncomputable def calculate_quality_score (m : Meta) : ℝ :=
  let score : ℝ := 0.5
  let src := lowerStr (m.source.getD "")
  let priority := lowerStr (m.priority.getD "")
  let score :=
    if priority = "live" ∨ src = "pubmed_articles" ∨ src = "uniprot_records"
    then score + 0.3 else score
  let source_type := lowerStr (m.source_type.getD "")
  let score :=
    if source_type = "peer_reviewed" then score + 0.3
    else if source_type = "clinical_trial" then score + 0.25
    else if source_type = "meta_analysis" then score + 0.2
    else score
  let score :=
    if m.citation_count > 0 then
      score + min 0.2 (Real.log (1 + m.citation_count) / 10)
    else score
  let score :=
    if m.impact_factor > 0 then score + min 0.1 (m.impact_factor / 50)
    else score
  min 1.0 score

/-- The body of the `for passage, embedding in zip(...)` loop of
`ContextManager.score_passages`: score one passage. `embedD` models
`aembed_documents` applied pointwise (one vector per text). -/
noncomputable def scorePassageOne (embedQ embedD : String → List ℝ) (now : ℤ)
    (semantic_weight recency_weight quality_weight : ℝ) (query : String)
    (passage : Document) : ScoredPassage :=
  let semantic_score := dotl (embedQ query) (embedD passage.page_content)
  let recency_score := calculate_recency_score now passage.metadata.date
  let quality_score := calculate_quality_score passage.metadata
  { content := passage.page_content
    metadata := passage.metadata
    semantic_score := semantic_score
    recency_score := recency_score
    quality_score := quality_score
    final_score :=
      semantic_weight * semantic_score +
      recency_weight * recency_score +
      quality_weight * quality_score }

/-- `ContextManager.score_passages`: score every passage, then
`scored_passages.sort(key=lambda x: x.final_score, reverse=True)`
(a stable descending sort). -/
noncomputable def score_passages (embedQ embedD : String → List ℝ) (now : ℤ)
    (semantic_weight recency_weight quality_weight : ℝ) (query : String)
    (passages : List Document) : List ScoredPassage :=
  sortD (fun sp => sp.final_score)
    (passages.map
      (scorePassageOne embedQ embedD now
        semantic_weight recency_weight quality_weight query))

/-- One entry of `provenance['sources']` as built by `select_passages`.
The dictionary keys written there are `source_id`, `chunk_id`, `score`,
`metadata`, and (only when truthy) `url`; no `text` key is ever written, so
the `text` field is `none` for every entry this code produces. -/
structure SourceInfo where
  source_id : String
  chunk_id : String
  score : ℝ
  metadata : Meta
  url : Option String := none
  text : Option String := none

/-- The provenance record returned by `select_passages`. -/
structure Provenance where
  sources : List SourceInfo
  min_score_threshold : ℝ
  max_context_length : ℕ
  total_tokens : ℕ
  selected_passages : ℕ

/-- Metadata copy with `source_id`/`chunk_id` removed, as in
`{k: v for k, v in passage.metadata.items() if k not in ['source_id', 'chunk_id']}`. -/
def stripIds (m : Meta) : Meta := { m with source_id := none, chunk_id := none }

/-- The provenance entry built for a selected passage. -/
noncomputable def mkSourceInfo (p : ScoredPassage) : SourceInfo :=
  { source_id := p.metadata.source_id.getD "unknown"
    chunk_id := p.metadata.chunk_id.getD "unknown"
    score := p.final_score
    metadata := stripIds p.metadata
    url := match p.metadata.url with
      | some u => if u = "" then none else some u
      | none => none
    text := none }

/-- The enriched `Document` built for a selected passage. -/
def mkSelectedDoc (p : ScoredPassage) : Document :=
  { page_content := p.content, metadata := p.metadata }

/-- The selection loop of `ContextManager.select_passages`: skip passages below
the threshold, `break` on the first above-threshold passage that would push the
running total past the budget. Returns the selected passages, their provenance
entries, and the final `current_length`. -/
noncomputable def selectGo (maxLen : ℕ) (thresh : ℝ) :
    ℕ → List ScoredPassage → List Document × List SourceInfo × ℕ
  | current, [] => ([], [], current)
  | current, p :: rest =>
    if p.final_score < thresh then selectGo maxLen thresh current rest
    else
      let passage_length := wordCount p.content
      if current + passage_length > maxLen then ([], [], current)
      else
        let r := selectGo maxLen thresh (current + passage_length) rest
        (mkSelectedDoc p :: r.1, mkSourceInfo p :: r.2.1, r.2.2)

/-- `ContextManager.select_passages`. `maxLen` is `self.max_context_length`
(a token budget, hence a natural number). -/
noncomputable def select_passages (maxLen : ℕ) (thresh : ℝ)
    (scored_passages : List ScoredPassage) : List Document × Provenance :=
  let r := selectGo maxLen thresh 0 scored_passages
  (r.1,
   { sources := r.2.1
     min_score_threshold := thresh
     max_context_length := maxLen
     total_tokens := r.2.2
     selected_passages := r.1.length })

/-! ## Confidence evaluator (`confidence_evaluator.py`)

External capabilities are parameters: `nli` models
`utils.nli_utils.check_consistency`, and `embedOne` models one
`client.models.embed_content` call (returning the embedding vector of one text,
or raising — `Except Unit`). The per-text embedding loop inside the `try`
block aborts on the first exception, i.e. it is `List.mapM embedOne`. -/

/-- The fixed biomedical indicator vocabulary of `evaluate_evidence_support`. -/
def biomedical_indicators : List String :=
  ["protein", "gene", "drug", "disease", "mechanism", "pathway", "target",
   "inhibition", "activation"]

/-- The fixed known-relationship vocabulary of `evaluate_novelty`. -/
def known_patterns : List String :=
  ["already known", "previously reported", "established", "well-documented",
   "common", "typical", "standard", "conventional"]

/-- The fixed novelty-signaling vocabulary of `evaluate_novelty`. -/
def novel_indicators : List String :=
  ["novel", "new", "unprecedented", "previously unknown", "first report"]

/-- `sum(1 for p in pats if p in text)`: the number of phrases of `pats` that
occur (at least once) as a substring of `text`. -/
def countPresent (pats : List String) (text : String) : ℕ :=
  (pats.filter (fun p => strContains text p)).length

/-- `evaluate_evidence_support`. The `hypothesis` argument is unused by the
source beyond logging. -/
noncomputable def evaluate_evidence_support (_hypothesis : String)
    (evidence_texts : List String) : ℝ :=
  let evidence_count := evidence_texts.length
  let quality_score : ℝ :=
    (evidence_texts.map (fun evidence =>
      let indicators_found := countPresent biomedical_indicators (lowerStr evidence)
      min ((indicators_found : ℝ) / (biomedical_indicators.length : ℝ)) 1.0)).sum
  let quality_score :=
    if evidence_texts.isEmpty then 0
    else quality_score / (evidence_texts.length : ℝ)
  (min ((evidence_count : ℝ) / 5.0) 1.0 + quality_score) / 2.0

/-- The pairwise cosine similarities of the double loop
`for i in range(n): for j in range(i+1, n)`. -/
noncomputable def pairwiseSims (embeddings : List (List ℝ)) : List ℝ :=
  (listPairs embeddings).map (fun pr => cosSim pr.1 pr.2)

/-- The `avg_similarity` / `semantic_consistency` computation: average the
pairwise similarities (`0` if there are none) and clamp to `[0, 1]`
(`min(max(avg_similarity, 0), 1)`). -/
noncomputable def semanticConsistency (embeddings : List (List ℝ)) : ℝ :=
  let similarities := pairwiseSims embeddings
  let avg_similarity :=
    if similarities.isEmpty then 0
    else similarities.sum / (similarities.length : ℝ)
  min (max avg_similarity 0) 1

/-- `evaluate_cross_agent_consistency`. -/
noncomputable def evaluate_cross_agent_consistency
    (nli : List String → Bool) (embedOne : String → Except Unit (List ℝ))
    (evidence_texts : List String) : ℝ :=
  if evidence_texts.length < 2 then 0.5
  else
    let consistency_score : ℝ := if nli evidence_texts then 1.0 else 0.5
    match evidence_texts.mapM embedOne with
    | .error _ => consistency_score
    | .ok embeddings =>
      (consistency_score + semanticConsistency embeddings) / 2.0

/-- `evaluate_novelty`. The evidence texts are unused by the source beyond
building an unused `evidence_combined` string. -/
noncomputable def evaluate_novelty (hypothesis : String) (_evidence_texts : List String) : ℝ :=
  let hypothesis_lower := lowerStr hypothesis
  let known_penalty := countPresent known_patterns hypothesis_lower
  let novelty_score := max (1.0 - (known_penalty : ℝ) * 0.2) 0.0
  let novel_boost := countPresent novel_indicators hypothesis_lower
  min (novelty_score + (novel_boost : ℝ) * 0.1) 1.0

/-- `evaluate_confidence`: clean the texts
(`[clean_text(e) for e in evidence_texts if e]`), compute the three sub-scores,
and combine them as `(e*0.4 + c*0.35 + n*0.25) * 100`. -/
noncomputable def evaluate_confidence
    (nli : List String → Bool) (embedOne : String → Except Unit (List ℝ))
    (hypothesis : String) (evidence_texts : List String) : ℝ :=
  let evidence_texts := (evidence_texts.filter (fun e => e ≠ "")).map clean_text
  let hypothesis := clean_text hypothesis
  let evidence_score := evaluate_evidence_support hypothesis evidence_texts
  let consistency_score :=
    evaluate_cross_agent_consistency nli embedOne evidence_texts
  let novelty_score := evaluate_novelty hypothesis evidence_texts
  let weighted_score :=
    evidence_score * 0.4 + consistency_score * 0.35 + novelty_score * 0.25
  weighted_score * 100

/-- Modelled from the spec (for comparison with `evaluate_novelty` only): the
novelty sub-score as claim C4 words it, with *occurrence* counts — `0.2` is
subtracted for each occurrence of a known-relationship phrase and `0.1` added
for each occurrence of a novelty-signaling phrase, occurrences counted with
`countOccur` rather than deduplicated per phrase. -/
noncomputable def evaluate_novelty_occurrenceSpec (hypothesis : String) : ℝ :=
  let hl := (lowerStr hypothesis).data
  let known_penalty :=
    (known_patterns.map (fun p => countOccur hl p.data)).sum
  let novelty_score := max (1.0 - (known_penalty : ℝ) * 0.2) 0.0
  let novel_boost :=
    (novel_indicators.map (fun p => countOccur hl p.data)).sum
  min (novelty_score + (novel_boost : ℝ) * 0.1) 1.0

/-! ## Retriever agent (`BioMind/agents/retriever_agent.py`)

`retrieve_relevant_docs` is embedded with its exception structure:

* the Matching Engine phase sits in its own `try`: an exception there leaves
  `me_hits = []` and the function continues;
* **all four** live-source fetches share one `try` whose handler is
  `return []`: an exception from any enabled live source makes the whole call
  return the empty list (a failure is *not* isolated to its source);
* per-document embedding failures are skipped (`continue`);
* a query-embedding/similarity failure returns `[]`.

Connector items are modelled by their rendered content strings (the f-string
templates of the source turn each item into one content string). External
capabilities are `Except`-valued parameters. -/

/-- A fetched live document: `{"source": ..., "content": ...}` (the metadata
dict is carried opaquely by the content model and not needed by any claim). -/
structure FetchedDoc where
  source : String
  content : String

/-- A Matching Engine neighbor: its metadata `content` (possibly absent) and
`distance`. -/
structure MENeighbor where
  content : Option String := none
  distance : ℝ := 0

/-- One result entry of `retrieve_relevant_docs`. -/
structure RetrievedDoc where
  source : String
  source_id : ℕ
  content : String
  search_score : ℝ

/-- The environment of one `retrieve_relevant_docs` call: enable flags and
fetch results for the four live sources, the Matching Engine configuration,
and the embedding backend (`embed` models `self.embeddings.aembed_query`,
used both for the query and for each document's content). -/
structure RetrieverEnv where
  enablePubmed : Bool
  enableUniprot : Bool
  enableDrugbank : Bool
  enableGoogleHealth : Bool
  pubmed : Except Unit (List String)
  uniprot : Except Unit (List String)
  drugbank : Except Unit (List String)
  googleHealth : Except Unit (List String)
  meEnabled : Bool
  meSearch : List ℝ → Except Unit (List MENeighbor)
  embed : String → Except Unit (List ℝ)

/-- L2-normalization of the query vector before the Matching Engine search:
`n = math.sqrt(sum(x*x for x in qv)) or 1.0; qv = [x / n for x in qv]`. -/
noncomputable def l2normalize (qv : List ℝ) : List ℝ :=
  let n := Real.sqrt (dotl qv qv)
  let n := if n = 0 then 1.0 else n
  qv.map (fun x => x / n)

/-- The Matching Engine phase: its own `try` block, so any failure (query
embedding or index search) yields `me_hits = []`. -/
noncomputable def meHits (env : RetrieverEnv) (query : String) :
    List RetrievedDoc :=
  if env.meEnabled then
    match env.embed query with
    | .error _ => []
    | .ok qv =>
      match env.meSearch (l2normalize qv) with
      | .error _ => []
      | .ok neighbors =>
        neighbors.map (fun n =>
          { source := "matching_engine"
            source_id := 0
            content := n.content.getD ""
            search_score := 1.0 - n.distance })
  else []

/-- One guarded source fetch inside the shared `try` block: when the source is
enabled, its (fallible) results are rendered into tagged documents; when
disabled, it contributes nothing. -/
def fetchIf (enabled : Bool) (r : Except Unit (List String)) (tag : String) :
    Except Unit (List FetchedDoc) :=
  if enabled then r.map (fun cs => cs.map (fun c => FetchedDoc.mk tag c))
  else .ok []

/-- The single `try` block gathering all enabled live sources in order
(PubMed, UniProt, DrugBank, Google Health blog); the first exception aborts
the whole block. -/
def gatherLive (env : RetrieverEnv) : Except Unit (List FetchedDoc) :=
  match fetchIf env.enablePubmed env.pubmed "pubmed" with
  | .error e => .error e
  | .ok pubmedDocs =>
    match fetchIf env.enableUniprot env.uniprot "uniprot" with
    | .error e => .error e
    | .ok uniprotDocs =>
      match fetchIf env.enableDrugbank env.drugbank "drugbank" with
      | .error e => .error e
      | .ok drugbankDocs =>
        match fetchIf env.enableGoogleHealth env.googleHealth "google_health" with
        | .error e => .error e
        | .ok ghDocs => .ok (pubmedDocs ++ uniprotDocs ++ drugbankDocs ++ ghDocs)

/-- A Matching Engine hit viewed as a fetched document for the combine step. -/
def meHitToFetched (h : RetrievedDoc) : FetchedDoc :=
  { source := h.source, content := h.content }

/-- `RetrieverAgent.retrieve_relevant_docs`. -/
noncomputable def retrieve_relevant_docs (env : RetrieverEnv) (query : String) :
    List RetrievedDoc :=
  let me_hits := meHits env query
  match gatherLive env with
  | .error _ => []
  | .ok documents =>
    if documents.isEmpty && me_hits.isEmpty then []
    else
      let combined := me_hits.map meHitToFetched ++ documents
      -- embedding loop: skip docs without content and per-doc failures
      let kept := combined.filterMap (fun doc =>
        if doc.content = "" then none
        else
          match env.embed doc.content with
          | .error _ => none
          | .ok v => some (doc, v))
      if kept.isEmpty then []
      else
        match env.embed query with
        | .error _ => []
        | .ok query_vector =>
          let withSims := kept.map (fun dv =>
            (dv.1, cosSim query_vector dv.2))
          -- sorted(range(n), key=lambda i: similarities[i], reverse=True)
          let indexed := withSims.enum
          let sortedEntries := sortD (fun e => e.2.2) indexed
          sortedEntries.map (fun e =>
            { source := e.2.1.source
              source_id := e.1
              content := e.2.1.content
              search_score := e.2.2 })

/-! ## Coordinator agent (`BioMind/agents/coordinator_agent.py`)

`run_pipeline` retrieves documents and, when none were retrieved, returns the
fixed guidance string with confidence `0.0` before invoking any domain agent
or the hypothesis synthesizer. The downstream agent pipeline (literature
summarization, protein/drug analysis, hypothesis synthesis, confidence
normalization) only runs on a non-empty document list; it calls external LLM
capabilities and is modelled as an opaque function `rest`. -/

/-- The fixed no-evidence guidance string of `CoordinatorAgent.run_pipeline`. -/
def noEvidenceGuidance : String :=
  "No evidence was retrieved from the enabled sources for this question. " ++
  "Try refining your query with more specific biomedical keywords " ++
  "(e.g., a condition, biomarker, or pathway), " ++
  "or type 'help' to see example queries."

/-- `CoordinatorAgent.run_pipeline`, with the retrieved documents supplied and
the downstream agent pipeline abstracted as `rest`. -/
def run_pipeline (docs : List RetrievedDoc)
    (rest : List RetrievedDoc → String × ℝ) : String × ℝ :=
  if docs.isEmpty then (noEvidenceGuidance, 0.0) else rest docs

/-! ## Response enhancement (`BioMind/rag/response_generator.py`)

The piece of `enhance_response` relevant to confidence scoring:
`evidence_texts = [s.get('text') or '' for s in response['provenance']['sources']]`
followed by `evaluate_confidence(response['response'], evidence_texts)`. -/

/-- The `evidence_texts` list built by `enhance_response` from the provenance
sources (`s.get('text') or ''`, Python truthiness). -/
def provenance_evidence_texts (sources : List SourceInfo) : List String :=
  sources.map (fun s =>
    match s.text with
    | some t => if t = "" then "" else t
    | none => "")

/-! ## Concrete inputs used by witnesses and counterexamples -/

/-- A string of `n` whitespace-separated one-letter words, as a character
list: `"w w ... w"`. -/
def repWordsL : ℕ → List Char
  | 0 => []
  | 1 => ['w']
  | n + 2 => 'w' :: ' ' :: repWordsL (n + 1)

/-- A 600-whitespace-token passage with final score `0.9` (Scenario E of the
spec). -/
noncomputable def passage600 : ScoredPassage :=
  { content := String.mk (repWordsL 600), metadata := {},
    semantic_score := 0.9, recency_score := 0.9, quality_score := 0.9,
    final_score := 0.9 }

/-- A later 100-whitespace-token passage with lower (but above-threshold)
final score `0.8`. -/
noncomputable def passage100 : ScoredPassage :=
  { content := String.mk (repWordsL 100), metadata := {},
    semantic_score := 0.8, recency_score := 0.8, quality_score := 0.8,
    final_score := 0.8 }

/-- A selected passage whose content is non-empty biomedical text. -/
noncomputable def spSelected : ScoredPassage :=
  { content := "protein gene drug", metadata := {},
    semantic_score := 1, recency_score := 1, quality_score := 1,
    final_score := 1 }

/-- A retriever environment where PubMed and UniProt are enabled, the PubMed
fetch raises, and the UniProt fetch returns one document. -/
def envPubmedFail : RetrieverEnv :=
  { enablePubmed := true, enableUniprot := true,
    enableDrugbank := false, enableGoogleHealth := false,
    pubmed := .error (), uniprot := .ok ["Protein: x"],
    drugbank := .ok [], googleHealth := .ok [],
    meEnabled := false, meSearch := fun _ => .error (),
    embed := fun _ => .ok [1] }

/-- The same environment with the PubMed fetch succeeding (with no results). -/
def envPubmedOk : RetrieverEnv := { envPubmedFail with pubmed := .ok [] }

/-- The same environment with the Matching Engine enabled but failing. -/
def envMeFail : RetrieverEnv :=
  { envPubmedOk with meEnabled := true, meSearch := fun _ => .error () }

/-- An environment where every enabled source succeeds with zero documents. -/
def envAllEmpty : RetrieverEnv :=
  { enablePubmed := true, enableUniprot := true,
    enableDrugbank := true, enableGoogleHealth := true,
    pubmed := .ok [], uniprot := .ok [],
    drugbank := .ok [], googleHealth := .ok [],
    meEnabled := false, meSearch := fun _ => .error (),
    embed := fun _ => .ok [1] }

/-- A placeholder downstream agent pipeline (never reached on the no-evidence
path). -/
def restStub : List RetrievedDoc → String × ℝ := fun _ => ("hypothesis", 37)

/-! # Theorems -/

/-! ## Stable descending sort: permutation, sortedness, stability -/

section SortDLemmas

variable {α : Type} (key : α → ℝ)

theorem insertD_perm (a : α) (l : List α) : (insertD key a l).Perm (a :: l) := by
  induction l with
  | nil => simp [insertD]
  | cons q t ih =>
    by_cases h : key q ≤ key a
    · simp [insertD, h]
    · simp only [insertD, if_neg h]
      exact (ih.cons q).trans (List.Perm.swap a q t)

theorem sortD_perm (l : List α) : (sortD key l).Perm l := by
  induction l with
  | nil => simp [sortD]
  | cons x t ih =>
    exact (insertD_perm key x (sortD key t)).trans (ih.cons x)

theorem mem_insertD {a x : α} {l : List α} (h : x ∈ insertD key a l) :
    x = a ∨ x ∈ l := by
  induction l with
  | nil => simpa [insertD] using h
  | cons q t ih =>
    by_cases hq : key q ≤ key a
    · simpa [insertD, hq, or_assoc] using h
    · simp only [insertD, if_neg hq, List.mem_cons] at h
      rcases h with h | h
      · exact Or.inr (by simp [h])
      · rcases ih h with h' | h'
        · exact Or.inl h'
        · exact Or.inr (by simp [h'])

theorem insertD_sorted (a : α) {l : List α}
    (h : l.Pairwise (fun x y => key y ≤ key x)) :
    (insertD key a l).Pairwise (fun x y => key y ≤ key x) := by
  induction l with
  | nil => simp [insertD]
  | cons q t ih =>
    rcases List.pairwise_cons.mp h with ⟨hq, ht⟩
    by_cases hqa : key q ≤ key a
    · simp only [insertD, if_pos hqa]
      refine List.pairwise_cons.mpr ⟨?_, h⟩
      intro y hy
      rcases List.mem_cons.mp hy with rfl | hy
      · exact hqa
      · exact le_trans (hq y hy) hqa
    · simp only [insertD, if_neg hqa]
      refine List.pairwise_cons.mpr ⟨?_, ih ht⟩
      intro y hy
      rcases mem_insertD key hy with rfl | hy
      · exact le_of_lt (lt_of_not_le hqa)
      · exact hq y hy

theorem sortD_sorted (l : List α) :
    (sortD key l).Pairwise (fun x y => key y ≤ key x) := by
  induction l with
  | nil => simp [sortD]
  | cons x t ih => exact insertD_sorted key x ih

theorem keyFilter_insertD (a : α) (l : List α) (s : ℝ) :
    keyFilter key s (insertD key a l) =
      if key a = s then a :: keyFilter key s l else keyFilter key s l := by
  induction l with
  | nil => by_cases h : key a = s <;> simp [insertD, keyFilter, h]
  | cons q t ih =>
    by_cases hqa : key q ≤ key a
    · rw [show insertD key a (q :: t) = a :: q :: t from if_pos hqa]
      by_cases h : key a = s <;> simp [keyFilter, List.filter_cons, h]
    · have hlt : key a < key q := lt_of_not_le hqa
      rw [show insertD key a (q :: t) = q :: insertD key a t from if_neg hqa]
      by_cases hq : key q = s
      · have h : ¬ key a = s := by
          intro h'; exact absurd (h'.trans hq.symm) (ne_of_lt hlt)
        simp only [keyFilter, List.filter_cons, hq, h] at *
        simp [ih]
      · simp only [keyFilter, List.filter_cons, hq, decide_eq_true_eq,
          if_neg hq] at *
        by_cases h : key a = s <;> simp [h] at ih ⊢ <;> simp [ih]

theorem keyFilter_sortD (l : List α) (s : ℝ) :
    keyFilter key s (sortD key l) = keyFilter key s l := by
  induction l with
  | nil => simp [sortD]
  | cons x t ih =>
    rw [sortD, keyFilter_insertD]
    by_cases h : key x = s
    · rw [if_pos h]
      simp only [keyFilter, List.filter_cons] at ih ⊢
      simp [h, ih]
    · rw [if_neg h]
      simp only [keyFilter, List.filter_cons] at ih ⊢
      simp [h, ih]

end SortDLemmas

/-! ## Word-count facts -/

theorem wordsOf_repWordsL : ∀ n, wordsOf (repWordsL n) = List.replicate n ['w']
  | 0 => rfl
  | 1 => rfl
  | n + 2 => by
    have ih := wordsOf_repWordsL (n + 1)
    have hw : ('w' : Char).isWhitespace = false := rfl
    have hs : (' ' : Char).isWhitespace = true := rfl
    simp only [repWordsL, wordsOf, splitWsAux, hw, hs, Bool.false_eq_true,
      if_false, if_true, List.isEmpty_cons, List.isEmpty_nil, List.reverse_cons,
      List.reverse_nil, List.nil_append] at ih ⊢
    rw [ih]
    rfl

theorem wordCount_repWordsL (n : ℕ) : wordCount (String.mk (repWordsL n)) = n := by
  show (wordsOf (repWordsL n)).length = n
  rw [wordsOf_repWordsL]
  exact List.length_replicate n ['w']

/-! ## Selection-loop invariants -/

theorem selectGo_props (maxLen : ℕ) (thresh : ℝ) :
    ∀ (ps : List ScoredPassage) (cur : ℕ),
      (selectGo maxLen thresh cur ps).2.2 =
        cur + ((selectGo maxLen thresh cur ps).1.map
          (fun d => wordCount d.page_content)).sum ∧
      (selectGo maxLen thresh cur ps).2.2 ≤ max cur maxLen ∧
      ((selectGo maxLen thresh cur ps).1.map Document.page_content).Sublist
        (ps.map ScoredPassage.content)
  | [], cur => by simp [selectGo]
  | p :: rest, cur => by
    by_cases h1 : p.final_score < thresh
    · have ih := selectGo_props maxLen thresh rest cur
      simp only [selectGo, if_pos h1]
      exact ⟨ih.1, ih.2.1,
        ih.2.2.trans (List.sublist_cons_self p.content _)⟩
    · by_cases h2 : cur + wordCount p.content > maxLen
      · simp only [selectGo, if_neg h1, if_pos h2]
        exact ⟨by simp, le_max_left _ _, by simp⟩
      · have ih := selectGo_props maxLen thresh rest (cur + wordCount p.content)
        have hle : cur + wordCount p.content ≤ maxLen := Nat.le_of_not_lt h2
        simp only [selectGo, if_neg h1, if_neg h2]
        refine ⟨?_, ?_, ?_⟩
        · simp only [List.map_cons, List.sum_cons, mkSelectedDoc]
          rw [ih.1]
          omega
        · calc (selectGo maxLen thresh (cur + wordCount p.content) rest).2.2
              ≤ max (cur + wordCount p.content) maxLen := ih.2.1
            _ ≤ maxLen := by omega
            _ ≤ max cur maxLen := le_max_right _ _
        · simp only [List.map_cons]
          exact List.Sublist.cons₂ _ ih.2.2

/-- C1: for every list of scored passages, every `min_score_threshold`, and
every `max_context_length`, `select_passages` returns a provenance whose
`total_tokens` never exceeds `max_context_length`; `total_tokens` equals the
sum of the whitespace-token counts of the selected passages; and no passage is
ever split — the selected contents are a sublist of the input contents,
unchanged. -/
theorem select_passages_budget (scored : List ScoredPassage) (thresh : ℝ)
    (maxLen : ℕ) :
    (select_passages maxLen thresh scored).2.total_tokens ≤ maxLen ∧
    (select_passages maxLen thresh scored).2.total_tokens =
      ((select_passages maxLen thresh scored).1.map
        (fun d => wordCount d.page_content)).sum ∧
    ((select_passages maxLen thresh scored).1.map
      Document.page_content).Sublist (scored.map ScoredPassage.content) := by
  have h := selectGo_props maxLen thresh scored 0
  refine ⟨?_, ?_, ?_⟩
  · simpa [select_passages] using h.2.1
  · simpa [select_passages] using h.1
  · simpa [select_passages] using h.2.2

/-- C2: the selector is first-fit-until-overflow. In the selection loop, as
soon as the scan reaches an above-threshold passage whose whitespace-token
count added to the running total exceeds the budget, scanning stops entirely —
the result is independent of all later passages, rather than skipping the
overflowing passage and continuing. In particular, when the very first
candidate is above threshold and alone exceeds the budget, the selection is
empty with `total_tokens = 0` whatever follows it. -/
theorem select_passages_first_fit :
    (∀ (maxLen : ℕ) (thresh : ℝ) (cur : ℕ) (p : ScoredPassage)
        (rest : List ScoredPassage),
      thresh ≤ p.final_score → maxLen < cur + wordCount p.content →
        selectGo maxLen thresh cur (p :: rest) = ([], [], cur)) ∧
    (∀ (maxLen : ℕ) (thresh : ℝ) (p : ScoredPassage)
        (rest : List ScoredPassage),
      thresh ≤ p.final_score → maxLen < wordCount p.content →
        select_passages maxLen thresh (p :: rest) =
          ([], { sources := [], min_score_threshold := thresh,
                 max_context_length := maxLen, total_tokens := 0,
                 selected_passages := 0 })) := by
  have hgo : ∀ (maxLen : ℕ) (thresh : ℝ) (cur : ℕ) (p : ScoredPassage)
      (rest : List ScoredPassage),
      thresh ≤ p.final_score → maxLen < cur + wordCount p.content →
        selectGo maxLen thresh cur (p :: rest) = ([], [], cur) := by
    intro maxLen thresh cur p rest hscore hover
    have h1 : ¬ p.final_score < thresh := not_lt.mpr hscore
    simp only [selectGo, if_neg h1, if_pos hover]
  refine ⟨hgo, ?_⟩
  intro maxLen thresh p rest hscore hover
  have := hgo maxLen thresh 0 p rest hscore (by omega)
  simp [select_passages, this]

/-- Witness for C2, instantiating Scenario E of the spec: the first candidate
has 600 whitespace tokens and score `0.9 ≥ 0.5`, the budget is 500, and a
later 100-token passage with score `0.8` follows; the selection stops at the
first candidate and returns nothing. -/
theorem select_passages_first_fit_witness :
    selectGo 500 0.5 7 [passage600, passage100] = ([], [], 7) ∧
    select_passages 500 0.5 [passage600, passage100] =
      ([], { sources := [], min_score_threshold := 0.5,
             max_context_length := 500, total_tokens := 0,
             selected_passages := 0 }) :=
  ⟨select_passages_first_fit.1 500 0.5 7 passage600 [passage100]
      (by norm_num [passage600])
      (by rw [show passage600.content = String.mk (repWordsL 600) from rfl,
              wordCount_repWordsL]; omega),
   select_passages_first_fit.2 500 0.5 passage600 [passage100]
      (by norm_num [passage600])
      (by rw [show passage600.content = String.mk (repWordsL 600) from rfl,
              wordCount_repWordsL]; omega)⟩

/-- C7: with the default weights `(0.6, 0.2, 0.2)`, every scored passage's
`final_score` is the weighted sum of its semantic, recency and quality
sub-scores, and `score_passages` returns exactly the per-passage scores of the
input (a permutation of the mapped list), sorted in non-increasing
`final_score` order, with ties between equal final scores kept in original
input order (stability: for every score value, the passages carrying that
value appear in the same order as in the unsorted scored list). -/
theorem score_passages_sorted_stable (embedQ embedD : String → List ℝ)
    (now : ℤ) (query : String) (passages : List Document) :
    (∀ p : Document,
      (scorePassageOne embedQ embedD now 0.6 0.2 0.2 query p).final_score =
        0.6 * (scorePassageOne embedQ embedD now 0.6 0.2 0.2 query p).semantic_score +
        0.2 * (scorePassageOne embedQ embedD now 0.6 0.2 0.2 query p).recency_score +
        0.2 * (scorePassageOne embedQ embedD now 0.6 0.2 0.2 query p).quality_score) ∧
    (score_passages embedQ embedD now 0.6 0.2 0.2 query passages).Perm
      (passages.map (scorePassageOne embedQ embedD now 0.6 0.2 0.2 query)) ∧
    (score_passages embedQ embedD now 0.6 0.2 0.2 query passages).Pairwise
      (fun a b => b.final_score ≤ a.final_score) ∧
    (∀ s : ℝ,
      keyFilter (fun sp => sp.final_score) s
        (score_passages embedQ embedD now 0.6 0.2 0.2 query passages) =
      keyFilter (fun sp => sp.final_score) s
        (passages.map (scorePassageOne embedQ embedD now 0.6 0.2 0.2 query))) := by
  refine ⟨fun p => rfl, ?_, ?_, ?_⟩
  · exact sortD_perm _ _
  · exact sortD_sorted _ _
  · intro s
    exact keyFilter_sortD _ _ s

/-- C8: the quality score is the clamp to `[0, 1]` of
`0.5 + (live/high-trust boost) + (first-matching source-type bonus) +
(capped citation boost) + (capped impact-factor boost)`, and it always lies in
`[0, 1]`. -/
theorem calculate_quality_score_spec (m : Meta) :
    calculate_quality_score m =
      min 1
        (0.5
          + (if lowerStr (m.priority.getD "") = "live"
                ∨ lowerStr (m.source.getD "") = "pubmed_articles"
                ∨ lowerStr (m.source.getD "") = "uniprot_records"
             then 0.3 else 0)
          + (if lowerStr (m.source_type.getD "") = "peer_reviewed" then 0.3
             else if lowerStr (m.source_type.getD "") = "clinical_trial" then 0.25
             else if lowerStr (m.source_type.getD "") = "meta_analysis" then 0.2
             else 0)
          + (if m.citation_count > 0
             then min 0.2 (Real.log (1 + m.citation_count) / 10) else 0)
          + (if m.impact_factor > 0
             then min 0.1 (m.impact_factor / 50) else 0)) ∧
    0 ≤ calculate_quality_score m ∧ calculate_quality_score m ≤ 1 := by
  have hcit : (0:ℝ) ≤
      (if m.citation_count > 0
       then min 0.2 (Real.log (1 + m.citation_count) / 10) else 0) := by
    split_ifs with h
    · refine le_min (by norm_num) ?_
      have : (0:ℝ) ≤ Real.log (1 + m.citation_count) :=
        Real.log_nonneg (by linarith)
      linarith
    · exact le_refl 0
  have himp : (0:ℝ) ≤
      (if m.impact_factor > 0 then min 0.1 (m.impact_factor / 50) else 0) := by
    split_ifs with h
    · refine le_min (by norm_num) ?_
      positivity
    · exact le_refl 0
  have ha : (0:ℝ) ≤
      (if lowerStr (m.priority.getD "") = "live"
          ∨ lowerStr (m.source.getD "") = "pubmed_articles"
          ∨ lowerStr (m.source.getD "") = "uniprot_records"
       then 0.3 else 0) := by
    split_ifs <;> norm_num
  have hb : (0:ℝ) ≤
      (if lowerStr (m.source_type.getD "") = "peer_reviewed" then 0.3
       else if lowerStr (m.source_type.getD "") = "clinical_trial" then 0.25
       else if lowerStr (m.source_type.getD "") = "meta_analysis" then 0.2
       else 0) := by
    split_ifs <;> norm_num
  have heq : calculate_quality_score m =
      min 1
        (0.5
          + (if lowerStr (m.priority.getD "") = "live"
                ∨ lowerStr (m.source.getD "") = "pubmed_articles"
                ∨ lowerStr (m.source.getD "") = "uniprot_records"
             then 0.3 else 0)
          + (if lowerStr (m.source_type.getD "") = "peer_reviewed" then 0.3
             else if lowerStr (m.source_type.getD "") = "clinical_trial" then 0.25
             else if lowerStr (m.source_type.getD "") = "meta_analysis" then 0.2
             else 0)
          + (if m.citation_count > 0
             then min 0.2 (Real.log (1 + m.citation_count) / 10) else 0)
          + (if m.impact_factor > 0
             then min 0.1 (m.impact_factor / 50) else 0)) := by
    simp only [calculate_quality_score]
    split_ifs <;> ring_nf
  refine ⟨heq, ?_, ?_⟩
  · rw [heq]
    refine le_min (by norm_num) ?_
    linarith
  · rw [heq]
    exact min_le_left _ _

/-! ## Confidence sub-score bounds (helper lemmas) -/

theorem evidence_support_bounds (h : String) (ts : List String) :
    0 ≤ evaluate_evidence_support h ts ∧ evaluate_evidence_support h ts ≤ 1 := by
  have hmem : ∀ x ∈ ts.map (fun evidence =>
      min ((countPresent biomedical_indicators (lowerStr evidence) : ℝ) /
        (biomedical_indicators.length : ℝ)) 1.0), 0 ≤ x ∧ x ≤ 1 := by
    intro x hx
    rcases List.mem_map.mp hx with ⟨e, _, rfl⟩
    constructor
    · exact le_min (by positivity) (by norm_num)
    · exact le_trans (min_le_right _ _) (by norm_num)
  set L := ts.map (fun evidence =>
      min ((countPresent biomedical_indicators (lowerStr evidence) : ℝ) /
        (biomedical_indicators.length : ℝ)) 1.0) with hL
  have hsum0 : 0 ≤ L.sum := List.sum_nonneg (fun x hx => (hmem x hx).1)
  have hsum1 : L.sum ≤ (L.length : ℝ) := by
    have := List.sum_le_card_nsmul L 1 (fun x hx => (hmem x hx).2)
    simpa [nsmul_eq_mul] using this
  have hlen : L.length = ts.length := List.length_map _ _
  have hq : 0 ≤ (if ts.isEmpty then (0:ℝ) else L.sum / (ts.length : ℝ)) ∧
      (if ts.isEmpty then (0:ℝ) else L.sum / (ts.length : ℝ)) ≤ 1 := by
    split_ifs with he
    · norm_num
    · have hpos : 0 < (ts.length : ℝ) := by
        have : ts ≠ [] := by
          intro hnil
          simp [hnil] at he
        have : 0 < ts.length := List.length_pos.mpr this
        exact_mod_cast this
      constructor
      · positivity
      · rw [div_le_one hpos]
        calc L.sum ≤ (L.length : ℝ) := hsum1
          _ = (ts.length : ℝ) := by rw [hlen]
  have hquant : 0 ≤ min ((ts.length : ℝ) / 5.0) 1.0 ∧
      min ((ts.length : ℝ) / 5.0) 1.0 ≤ 1 := by
    constructor
    · exact le_min (by positivity) (by norm_num)
    · exact le_trans (min_le_right _ _) (by norm_num)
  simp only [evaluate_evidence_support, ← hL]
  constructor
  · linarith [hq.1, hquant.1]
  · linarith [hq.2, hquant.2]

theorem semanticConsistency_bounds (embs : List (List ℝ)) :
    0 ≤ semanticConsistency embs ∧ semanticConsistency embs ≤ 1 := by
  constructor
  · exact le_min (le_max_right _ _) (by norm_num)
  · exact le_trans (min_le_right _ _) (by norm_num)

theorem consistency_bounds (nli : List String → Bool)
    (embedOne : String → Except Unit (List ℝ)) (ts : List String) :
    0 ≤ evaluate_cross_agent_consistency nli embedOne ts ∧
    evaluate_cross_agent_consistency nli embedOne ts ≤ 1 := by
  unfold evaluate_cross_agent_consistency
  by_cases hlen : ts.length < 2
  · rw [if_pos hlen]
    norm_num
  · rw [if_neg hlen]
    rcases h : ts.mapM embedOne with e | embs
    · simp only [h]
      cases hn : nli ts <;> norm_num
    · simp only [h]
      have hs := semanticConsistency_bounds embs
      have hcs : (if nli ts then (1.0:ℝ) else 0.5) = 1.0 ∨
          (if nli ts then (1.0:ℝ) else 0.5) = 0.5 := by
        cases hn : nli ts <;> simp
      rcases hcs with hc | hc <;> rw [hc] <;> constructor <;>
        linarith [hs.1, hs.2]

theorem novelty_bounds (h : String) (ts : List String) :
    0 ≤ evaluate_novelty h ts ∧ evaluate_novelty h ts ≤ 1 := by
  unfold evaluate_novelty
  constructor
  · refine le_min ?_ (by norm_num)
    have h1 : (0:ℝ) ≤ max (1.0 - (countPresent known_patterns (lowerStr h) : ℝ) * 0.2) 0.0 :=
      le_trans (by norm_num) (le_max_right _ _)
    have h2 : (0:ℝ) ≤ (countPresent novel_indicators (lowerStr h) : ℝ) * 0.1 := by
      positivity
    linarith
  · exact le_trans (min_le_right _ _) (by norm_num)

/-- C6: for every hypothesis, every evidence list, and every external backend,
`evaluate_confidence` returns
`100 * (0.4*evidence + 0.35*consistency + 0.25*novelty)` (the sub-scores being
computed on the cleaned, non-empty evidence texts), each sub-score lies in
`[0, 1]`, and the confidence percentage lies in `[0, 100]`. -/
theorem evaluate_confidence_spec (nli : List String → Bool)
    (embedOne : String → Except Unit (List ℝ)) (hyp : String)
    (ts : List String) :
    evaluate_confidence nli embedOne hyp ts =
      100 * (0.4 * evaluate_evidence_support (clean_text hyp)
                ((ts.filter (fun e => e ≠ "")).map clean_text)
           + 0.35 * evaluate_cross_agent_consistency nli embedOne
                ((ts.filter (fun e => e ≠ "")).map clean_text)
           + 0.25 * evaluate_novelty (clean_text hyp)
                ((ts.filter (fun e => e ≠ "")).map clean_text)) ∧
    (0 ≤ evaluate_evidence_support (clean_text hyp)
        ((ts.filter (fun e => e ≠ "")).map clean_text) ∧
      evaluate_evidence_support (clean_text hyp)
        ((ts.filter (fun e => e ≠ "")).map clean_text) ≤ 1) ∧
    (0 ≤ evaluate_cross_agent_consistency nli embedOne
        ((ts.filter (fun e => e ≠ "")).map clean_text) ∧
      evaluate_cross_agent_consistency nli embedOne
        ((ts.filter (fun e => e ≠ "")).map clean_text) ≤ 1) ∧
    (0 ≤ evaluate_novelty (clean_text hyp)
        ((ts.filter (fun e => e ≠ "")).map clean_text) ∧
      evaluate_novelty (clean_text hyp)
        ((ts.filter (fun e => e ≠ "")).map clean_text) ≤ 1) ∧
    0 ≤ evaluate_confidence nli embedOne hyp ts ∧
    evaluate_confidence nli embedOne hyp ts ≤ 100 := by
  have hE := evidence_support_bounds (clean_text hyp)
    ((ts.filter (fun e => e ≠ "")).map clean_text)
  have hC := consistency_bounds nli embedOne
    ((ts.filter (fun e => e ≠ "")).map clean_text)
  have hN := novelty_bounds (clean_text hyp)
    ((ts.filter (fun e => e ≠ "")).map clean_text)
  have heq : evaluate_confidence nli embedOne hyp ts =
      100 * (0.4 * evaluate_evidence_support (clean_text hyp)
                ((ts.filter (fun e => e ≠ "")).map clean_text)
           + 0.35 * evaluate_cross_agent_consistency nli embedOne
                ((ts.filter (fun e => e ≠ "")).map clean_text)
           + 0.25 * evaluate_novelty (clean_text hyp)
                ((ts.filter (fun e => e ≠ "")).map clean_text)) := by
    simp only [evaluate_confidence]
    ring
  refine ⟨heq, hE, hC, hN, ?_, ?_⟩
  · rw [heq]
    nlinarith [hE.1, hC.1, hN.1]
  · rw [heq]
    nlinarith [hE.2, hC.2, hN.2]

/-- C9: the cross-evidence consistency sub-score is exactly `0.5` for fewer
than two evidence texts; with at least two texts and a successful embedding
step it is `(nli_term + clamped average pairwise cosine similarity) / 2`,
where `nli_term` is `1.0` on agreement and `0.5` otherwise; and when the
embedding step fails it degrades to `nli_term` alone instead of failing. -/
theorem evaluate_cross_agent_consistency_cases (nli : List String → Bool)
    (embedOne : String → Except Unit (List ℝ)) (ts : List String) :
    (ts.length < 2 → evaluate_cross_agent_consistency nli embedOne ts = 0.5) ∧
    (2 ≤ ts.length → ∀ embs, ts.mapM embedOne = Except.ok embs →
      evaluate_cross_agent_consistency nli embedOne ts =
        ((if nli ts then (1.0:ℝ) else 0.5) + semanticConsistency embs) / 2) ∧
    (2 ≤ ts.length → ∀ e, ts.mapM embedOne = Except.error e →
      evaluate_cross_agent_consistency nli embedOne ts =
        (if nli ts then (1.0:ℝ) else 0.5)) := by
  refine ⟨?_, ?_, ?_⟩
  · intro hlen
    simp only [evaluate_cross_agent_consistency, if_pos hlen]
  · intro hlen embs hok
    have hlt : ¬ ts.length < 2 := not_lt.mpr hlen
    simp only [evaluate_cross_agent_consistency, if_neg hlt, hok]
    norm_num
  · intro hlen e herr
    have hlt : ¬ ts.length < 2 := not_lt.mpr hlen
    simp only [evaluate_cross_agent_consistency, if_neg hlt, herr]

/-- Witness for C9, exercising all three branches at concrete inputs: one
evidence text gives `0.5`; two texts with a failing embedding backend give the
NLI term alone (`1.0` for an agreeing NLI); two texts with a succeeding
backend embedding both to `[1]` give `(1 + 1)/2 = 1`. -/
theorem evaluate_cross_agent_consistency_cases_witness :
    evaluate_cross_agent_consistency (fun _ => true)
      (fun _ => Except.error ()) ["a"] = 0.5 ∧
    evaluate_cross_agent_consistency (fun _ => true)
      (fun _ => Except.error ()) ["a", "b"] = 1.0 ∧
    evaluate_cross_agent_consistency (fun _ => true)
      (fun _ => Except.ok [1]) ["a", "b"] = 1 := by
  refine ⟨?_, ?_, ?_⟩
  · exact (evaluate_cross_agent_consistency_cases (fun _ => true)
      (fun _ => Except.error ()) ["a"]).1 (by norm_num)
  · rw [(evaluate_cross_agent_consistency_cases (fun _ => true)
      (fun _ => Except.error ()) ["a", "b"]).2.2 (by norm_num) () rfl]
    simp
  · rw [(evaluate_cross_agent_consistency_cases (fun _ => true)
      (fun _ => Except.ok [1]) ["a", "b"]).2.1 (by norm_num) [[1], [1]] rfl]
    have hdot : dotl [1] [1] = 1 := by
      simp [dotl]
    have hcos : cosSim [1] [1] = 1 := by
      rw [cosSim]
      simp only [hdot, Real.sqrt_one]
      norm_num
    have hsem : semanticConsistency [[1], [1]] = 1 := by
      simp only [semanticConsistency, pairwiseSims, listPairs]
      simp [hcos]
    rw [hsem]
    norm_num

/-- C4 (amended): the novelty sub-score starts at `1.0`, subtracts `0.2` for
each known-relationship phrase *present* in the hypothesis (each phrase
counted at most once, however many times it occurs), floors at `0.0`, then
adds `0.1` for each novelty-signaling phrase present (again at most once per
phrase), capping at `1.0`; the two counts are bounded by the vocabulary sizes
8 and 5, and the result lies in `[0, 1]`. -/
theorem evaluate_novelty_presence_spec (h : String) (ts : List String) :
    evaluate_novelty h ts =
      min (max (1.0 - (countPresent known_patterns (lowerStr h) : ℝ) * 0.2) 0.0
        + (countPresent novel_indicators (lowerStr h) : ℝ) * 0.1) 1.0 ∧
    countPresent known_patterns (lowerStr h) ≤ 8 ∧
    countPresent novel_indicators (lowerStr h) ≤ 5 ∧
    0 ≤ evaluate_novelty h ts ∧ evaluate_novelty h ts ≤ 1 := by
  refine ⟨rfl, ?_, ?_, (novelty_bounds h ts).1, (novelty_bounds h ts).2⟩
  · have hle := List.length_filter_le
      (fun p => strContains (lowerStr h) p) known_patterns
    simpa [countPresent, known_patterns] using hle
  · have hle := List.length_filter_le
      (fun p => strContains (lowerStr h) p) novel_indicators
    simpa [countPresent, novel_indicators] using hle

/-- Counterexample to C4 as stated: on the hypothesis
`"standard common novel novel"` the source's novelty score is `0.7` (the
phrase `"novel"` is boosted once although it occurs twice), while the
claimed occurrence-counting rule would give `0.8`. -/
theorem evaluate_novelty_occurrence_counterexample :
    evaluate_novelty "standard common novel novel" [] = 0.7 ∧
    evaluate_novelty_occurrenceSpec "standard common novel novel" = 0.8 ∧
    evaluate_novelty "standard common novel novel" [] ≠
      evaluate_novelty_occurrenceSpec "standard common novel novel" := by
  have h1 : countPresent known_patterns
      (lowerStr "standard common novel novel") = 2 := by rfl
  have h2 : countPresent novel_indicators
      (lowerStr "standard common novel novel") = 1 := by rfl
  have h3 : (known_patterns.map (fun p =>
      countOccur (lowerStr "standard common novel novel").data p.data)).sum
        = 2 := by rfl
  have h4 : (novel_indicators.map (fun p =>
      countOccur (lowerStr "standard common novel novel").data p.data)).sum
        = 2 := by rfl
  have hA : evaluate_novelty "standard common novel novel" [] = 0.7 := by
    simp only [evaluate_novelty, h1, h2]
    norm_num [max_def, min_def]
  have hB : evaluate_novelty_occurrenceSpec "standard common novel novel"
      = 0.8 := by
    simp only [evaluate_novelty_occurrenceSpec, h3, h4]
    norm_num [max_def, min_def]
  exact ⟨hA, hB, by rw [hA, hB]; norm_num⟩

/-- C3 (bug evidence): `select_passages` writes no `text` key into its
provenance source entries, so `enhance_response`'s
`[s.get('text') or '' for s in provenance['sources']]` yields one empty string
per selected passage rather than the selected contents, and
`evaluate_confidence` (which drops empty strings) then scores against *no*
evidence. Shown at a concrete selection of one passage with content
`"protein gene drug"`. -/
theorem enhance_response_evidence_texts_empty :
    provenance_evidence_texts
      (select_passages 100 0 [spSelected]).2.sources = [""] ∧
    (select_passages 100 0 [spSelected]).1.map Document.page_content =
      ["protein gene drug"] ∧
    provenance_evidence_texts
      (select_passages 100 0 [spSelected]).2.sources ≠
      (select_passages 100 0 [spSelected]).1.map Document.page_content ∧
    (∀ (nli : List String → Bool) (embedOne : String → Except Unit (List ℝ))
        (h : String),
      evaluate_confidence nli embedOne h [""] =
        evaluate_confidence nli embedOne h []) := by
  have h1 : ¬ spSelected.final_score < 0 := by norm_num [spSelected]
  have h3 : wordCount spSelected.content = 3 := rfl
  have h2 : ¬ (0 + wordCount spSelected.content > 100) := by
    rw [h3]
    omega
  have hsel : selectGo 100 0 0 [spSelected] =
      ([mkSelectedDoc spSelected], [mkSourceInfo spSelected], 3) := by
    simp only [selectGo, if_neg h1, if_neg h2, h3]
    norm_num
  refine ⟨?_, ?_, ?_, ?_⟩
  · simp only [select_passages, hsel]
    simp [provenance_evidence_texts, mkSourceInfo]
  · simp only [select_passages, hsel]
    simp [mkSelectedDoc, spSelected]
  · simp only [select_passages, hsel]
    simp [provenance_evidence_texts, mkSourceInfo, mkSelectedDoc, spSelected]
  · intro nli embedOne h
    have hfil : (([""] : List String).filter (fun e => e ≠ "")) = [] := by simp
    simp only [evaluate_confidence, hfil, List.filter_nil]

/-- `gatherLive` fails as a whole as soon as any single enabled live source
fails. -/
theorem gatherLive_error_of_source (env : RetrieverEnv)
    (h : (env.enablePubmed = true ∧ env.pubmed = .error ()) ∨
         (env.enableUniprot = true ∧ env.uniprot = .error ()) ∨
         (env.enableDrugbank = true ∧ env.drugbank = .error ()) ∨
         (env.enableGoogleHealth = true ∧ env.googleHealth = .error ())) :
    gatherLive env = .error () := by
  have herr : ∀ tag, fetchIf true (.error ()) tag = .error () := by
    intro tag
    simp [fetchIf, Except.map]
  unfold gatherLive
  rcases h with ⟨he, hf⟩ | ⟨he, hf⟩ | ⟨he, hf⟩ | ⟨he, hf⟩
  · rw [he, hf, herr]
  · rw [he, hf]
    rcases hp : fetchIf env.enablePubmed env.pubmed "pubmed" with e | ds
    · rfl
    · rw [herr]
  · rw [he, hf]
    rcases hp : fetchIf env.enablePubmed env.pubmed "pubmed" with e | ds
    · rfl
    · rcases hu : fetchIf env.enableUniprot env.uniprot "uniprot" with e | ds'
      · rfl
      · rw [herr]
  · rw [he, hf]
    rcases hp : fetchIf env.enablePubmed env.pubmed "pubmed" with e | ds
    · rfl
    · rcases hu : fetchIf env.enableUniprot env.uniprot "uniprot" with e | ds'
      · rfl
      · rcases hd : fetchIf env.enableDrugbank env.drugbank "drugbank"
            with e | ds''
        · rfl
        · rw [herr]

/-- A disabled or failing Matching Engine contributes no hits. -/
theorem meHits_eq_nil_of_fail (env : RetrieverEnv) (query : String)
    (h : ∀ v, env.meSearch v = .error ()) : meHits env query = [] := by
  unfold meHits
  cases hm : env.meEnabled
  · simp
  · simp only [if_pos rfl, if_true]
    rcases he : env.embed query with e | qv
    · rfl
    · simp [h]

/-- C5 (amended): source-failure isolation holds only for the Matching Engine
phase. A failure of the Matching Engine is treated as zero hits from that
source and the live fetch continues (the result is the same as with the
Matching Engine disabled); but an exception from any *enabled live source*
(PubMed, UniProt, DrugBank, Google Health blog) aborts the whole fetch:
`retrieve_relevant_docs` returns the empty list, discarding the documents of
every other source. -/
theorem retrieve_relevant_docs_failure_semantics (env : RetrieverEnv)
    (query : String) :
    ((env.enablePubmed = true ∧ env.pubmed = .error ()) ∨
     (env.enableUniprot = true ∧ env.uniprot = .error ()) ∨
     (env.enableDrugbank = true ∧ env.drugbank = .error ()) ∨
     (env.enableGoogleHealth = true ∧ env.googleHealth = .error ()) →
      retrieve_relevant_docs env query = []) ∧
    ((∀ v, env.meSearch v = .error ()) →
      retrieve_relevant_docs env query =
        retrieve_relevant_docs { env with meEnabled := false } query) := by
  constructor
  · intro h
    have hg := gatherLive_error_of_source env h
    simp only [retrieve_relevant_docs, hg]
  · intro h
    have hme : meHits env query = [] := meHits_eq_nil_of_fail env query h
    have hme' : meHits { env with meEnabled := false } query = [] := by
      simp [meHits]
    simp only [retrieve_relevant_docs, hme, hme']
    rfl

/-- Witness for C5's amended statement: with PubMed enabled and failing (and
UniProt holding a document), the whole fetch returns `[]`; with a failing
Matching Engine, retrieval equals retrieval with the Matching Engine
disabled. -/
theorem retrieve_relevant_docs_failure_semantics_witness :
    retrieve_relevant_docs envPubmedFail "q" = [] ∧
    retrieve_relevant_docs envMeFail "q" =
      retrieve_relevant_docs { envMeFail with meEnabled := false } "q" :=
  ⟨(retrieve_relevant_docs_failure_semantics envPubmedFail "q").1
      (Or.inl ⟨rfl, rfl⟩),
   (retrieve_relevant_docs_failure_semantics envMeFail "q").2 (fun _ => rfl)⟩

/-- Counterexample to C5 as stated: PubMed and UniProt are enabled, the PubMed
fetch raises, and UniProt returns one document — yet the fetch returns the
empty list; with PubMed succeeding instead, the very same UniProt document is
returned. The failure is not isolated to its source, and a single source's
exception does empty the whole fetch. -/
theorem retrieve_relevant_docs_aborts_counterexample :
    retrieve_relevant_docs envPubmedFail "q" = [] ∧
    (retrieve_relevant_docs envPubmedOk "q").map RetrievedDoc.content =
      ["Protein: x"] := by
  constructor
  · exact rfl
  · rfl

/-- C10: when zero documents are retrieved, `run_pipeline` returns the fixed
no-evidence guidance string with confidence exactly `0.0`, without invoking
the downstream generation pipeline (the result is the same for *every*
downstream continuation); in particular this happens whenever every enabled
source returns zero documents. -/
theorem run_pipeline_no_evidence :
    (∀ (rest : List RetrievedDoc → String × ℝ) (docs : List RetrievedDoc),
      docs = [] → run_pipeline docs rest = (noEvidenceGuidance, 0.0)) ∧
    (∀ (rest : List RetrievedDoc → String × ℝ) (env : RetrieverEnv)
        (query : String),
      env.pubmed = .ok [] → env.uniprot = .ok [] → env.drugbank = .ok [] →
      env.googleHealth = .ok [] → env.meEnabled = false →
      run_pipeline (retrieve_relevant_docs env query) rest =
        (noEvidenceGuidance, 0.0)) := by
  have hnil : ∀ (rest : List RetrievedDoc → String × ℝ),
      run_pipeline [] rest = (noEvidenceGuidance, 0.0) := by
    intro rest
    simp [run_pipeline]
  constructor
  · intro rest docs hdocs
    rw [hdocs]
    exact hnil rest
  · intro rest env query hpub huni hdru hgh hme
    have hok : ∀ (b : Bool) (tag : String),
        fetchIf b (.ok []) tag = .ok [] := by
      intro b tag
      cases b <;> simp [fetchIf, Except.map]
    have hg : gatherLive env = .ok [] := by
      unfold gatherLive
      rw [hpub, huni, hdru, hgh, hok, hok, hok, hok]
      rfl
    have hm : meHits env query = [] := by
      unfold meHits
      rw [hme]
      rfl
    have hr : retrieve_relevant_docs env query = [] := by
      simp only [retrieve_relevant_docs, hg, hm]
      rfl
    rw [hr]
    exact hnil rest

/-- Witness for C10: the empty document list, and a retrieval where every
enabled source returns zero documents, both yield the guidance string with
confidence `0.0` under a downstream stub that would return something else. -/
theorem run_pipeline_no_evidence_witness :
    run_pipeline [] restStub = (noEvidenceGuidance, 0.0) ∧
    run_pipeline (retrieve_relevant_docs envAllEmpty "q") restStub =
      (noEvidenceGuidance, 0.0) :=
  ⟨run_pipeline_no_evidence.1 restStub [] rfl,
   run_pipeline_no_evidence.2 restStub envAllEmpty "q" rfl rfl rfl rfl rfl⟩

end BioMind
